import Mathlib

/-!
Shallow embedding of the XMM6260 firmware loader (modem-ctl.c).

The program is a linear bring-up sequence: open the radio image and the
boot and link devices, drive the power and link state, perform the ATAT
handshake, upload the PSI first-stage image with an XOR checksum, and
check the acknowledgment train.  System calls are modelled by an
environment record that supplies each call result; machine integers are
modelled by Nat and Int with explicit reduction modulo 2 to the 64 where
the C type is the unsigned size_t.
-/

namespace XMM6260

/-- Width of size_t on the 64-bit target: values wrap modulo 2 to the 64. -/
def sizeTMod : Nat := 2 ^ 64

/-- Conversion of a signed ssize_t value to size_t, as happens in the C
statement `size_t written = write(...)`: a negative result wraps around. -/
def toSizeT (i : Int) : Nat := (i % (sizeTMod : Int)).toNat

/-- Components of the Samsung XMM6260 firmware (enum xmm6260_image). -/
inductive xmm6260_image
  | PSI
  | EBL
  | SECURE_IMAGE
  | FIRMWARE
  | NVDATA
  deriving DecidableEq

/-- An (offset, length) pair in the firmware image (struct xmm6260_offset). -/
structure xmm6260_offset where
  offset : Nat
  length : Nat
  deriving DecidableEq

/-- Locations of the firmware components (i9100_radio_parts table). -/
def i9100_radio_parts : xmm6260_image → xmm6260_offset
  | .PSI => { offset := 0, length := 0xf000 }
  | .EBL => { offset := 0xf000, length := 0x19000 }
  | .SECURE_IMAGE => { offset := 0x9ff800, length := 0x800 }
  | .FIRMWARE => { offset := 0x28000, length := 0x9d8000 }
  | .NVDATA => { offset := 0x6406e00, length := 2 <<< 20 }

/-- Size of the radio image mapping: RADIO_MAP_SIZE = 16 << 20. -/
def RADIO_MAP_SIZE : Nat := 16 <<< 20

/-- XMM_PSI_MAGIC, the fixed first byte of the PSI header. -/
def XMM_PSI_MAGIC : Nat := 0x30

/-- The packed psi_header_t: one magic byte, a 16-bit length, one padding
byte.  The length field is uint16_t, so any value stored into it is
reduced modulo 2 to the 16. -/
structure psi_header_t where
  magic : Nat
  length : Nat
  padding : Nat
  deriving DecidableEq

/-- Construction of the PSI header performed in send_PSI:
`psi_header_t hdr = { .magic = XMM_PSI_MAGIC, .length = length };`
The designated initializer zero-fills the padding byte, and the size_t
length is implicitly converted to uint16_t, i.e. reduced modulo 65536. -/
def mkPsiHeader (length : Nat) : psi_header_t :=
  { magic := XMM_PSI_MAGIC, length := length % 2 ^ 16, padding := 0 }

/-- C memcmp on two byte buffers of equal size: 0 when equal, otherwise
the (sign of the) difference of the first differing bytes, compared as
unsigned char. -/
def memcmp : List Nat → List Nat → Int
  | a :: as, b :: bs => if a = b then memcmp as bs else (a : Int) - (b : Int)
  | _, _ => 0

/-- receive(fd, buf, size): a select on the fd, whose failure is returned,
followed by a read whose result is returned.  The environment supplies
both call results. -/
def receive (selectRet readRet : Int) : Int :=
  if selectRet < 0 then selectRet else readRet

/-- expect_data(fd, data, size): receive size bytes (the combined receive
result is recvRet and the buffer contents after the read are buf), and
return the receive error if negative, otherwise memcmp(buf, data, size). -/
def expect_data (recvRet : Int) (buf expected : List Nat) : Int :=
  if recvRet < 0 then recvRet else memcmp buf expected

/-- calculateCRC(data, offset, length): running XOR of the length bytes
starting at offset.  The image bytes are modelled as a total function
from index to byte value. -/
def calculateCRC (data : Nat → Nat) (offset length : Nat) : Nat :=
  (List.range length).foldl (fun crc i => crc ^^^ data (offset + i)) 0

/-- One write(2) call performed by the PSI payload loop: the byte index
the write starts from, the byte count requested, and the returned value. -/
structure PsiWriteCall where
  startAddr : Nat
  count : Nat
  ret : Int
  deriving DecidableEq

/-- Outcome of the PSI payload write loop: the loop exited normally, the
error branch fired, or the supplied list of write results was exhausted
while the loop condition still held (the loop would keep running). -/
inductive LoopOutcome
  | done
  | failed (ret : Int)
  | starved
  deriving DecidableEq

/-- The payload write loop of send_PSI:

  while (start < end) \x7b
    size_t written = write(fd, radio_data + start, end - offset);
    if (written < 0) goto fail;
    start += written;
  \x7d

written has type size_t, so the negative test compares an unsigned value
against zero and the requested count is end - offset (the full length),
not end - start.  Both are kept literally: the Nat written is never
below zero, and the count field of every call is endv - offset. -/
def psiWriteLoop (offset endv : Nat) : Nat → List Int → LoopOutcome × List PsiWriteCall
  | start, [] => if start < endv then (.starved, []) else (.done, [])
  | start, w :: ws =>
    if start < endv then
      let written : Nat := toSizeT w
      let call : PsiWriteCall := { startAddr := start, count := endv - offset, ret := w }
      if written < 0 then (.failed w, [call])
      else
        let rest := psiWriteLoop offset endv ((start + written) % sizeTMod) ws
        (rest.1, call :: rest.2)
    else (.done, [])

/-- Environment of send_PSI: the results of its system calls.  The 22
acknowledgment reads are a function from the loop index to the receive
result; the confirmation reads supply the receive result and the byte
that ends up in the one-byte buffer of expect_data. -/
structure PsiEnv where
  hdrWriteRet : Int
  payloadWrites : List Int
  crcWriteRet : Int
  ackReadRet : Nat → Int
  conf1Ret : Int
  conf1Byte : Nat
  conf2Ret : Int
  conf2Byte : Nat

/-- Outcome of send_PSI: the returned int, or the payload loop not
terminating within the supplied write results. -/
inductive PsiOutcome
  | ret (r : Int)
  | hang
  deriving DecidableEq

/-- Observable result of send_PSI: its return value, the checksum byte
passed to the trailing one-byte write when that write is reached, and
the number of write calls issued on the channel. -/
structure PsiResult where
  outcome : PsiOutcome
  crcSent : Option Nat
  writes : Nat

/-- Index of the first of the 22 acknowledgment reads whose receive
result is below 1, if any: that read makes the drain loop jump to fail. -/
def ackDrainFailIndex (reads : Nat → Int) : Option Nat :=
  (List.range 22).find? fun i => decide (reads i < 1)

/-- send_PSI(fd), lines 329-391: write the 4-byte packed header (a result
other than sizeof(hdr) = 4 returns that result), run the payload write
loop, write the XOR checksum over the PSI range (a result below 1
returns it), drain 22 acknowledgment bytes (a receive result below 1
jumps to fail, returning ret, which still holds the checksum write
result), then two expect_data calls against the byte 0x1, each fatal
only when its result is negative.  The failed branch of the payload loop
returns ret, which still holds the header write result, since the loop
assigns written, not ret. -/
def send_PSI (radio_data : Nat → Nat) (env : PsiEnv) : PsiResult :=
  let length := (i9100_radio_parts .PSI).length
  let offset := (i9100_radio_parts .PSI).offset
  if env.hdrWriteRet ≠ 4 then { outcome := .ret env.hdrWriteRet, crcSent := none, writes := 1 }
  else
    let start := offset
    let endv := length + start
    let loop := psiWriteLoop offset endv start env.payloadWrites
    let wr := 1 + loop.2.length
    match loop.1 with
    | .starved => { outcome := .hang, crcSent := none, writes := wr }
    | .failed _ => { outcome := .ret env.hdrWriteRet, crcSent := none, writes := wr }
    | .done =>
      let crc := calculateCRC radio_data offset length
      if env.crcWriteRet < 1 then
        { outcome := .ret env.crcWriteRet, crcSent := some crc, writes := wr + 1 }
      else if (ackDrainFailIndex env.ackReadRet).isSome then
        { outcome := .ret env.crcWriteRet, crcSent := some crc, writes := wr + 1 }
      else
        let r1 := expect_data env.conf1Ret [env.conf1Byte] [0x1]
        if r1 < 0 then { outcome := .ret r1, crcSent := some crc, writes := wr + 1 }
        else
          let r2 := expect_data env.conf2Ret [env.conf2Byte] [0x1]
          if r2 < 0 then { outcome := .ret r2, crcSent := some crc, writes := wr + 1 }
          else { outcome := .ret 0, crcSent := some crc, writes := wr + 1 }

/-- A release action performed by the cleanup block at the end of main. -/
inductive CleanupAction
  | unmap (addr : Int)
  | closeFd (fd : Int)
  deriving DecidableEq

/-- MAP_FAILED, the mmap error sentinel (void*)-1, as an address value. -/
def MAP_FAILED : Int := -1

/-- The cleanup block of main (lines 539-556), applied to the values the
four file-scope variables hold when the fail label is reached: munmap
unless radio_data equals MAP_FAILED, then close each of link_fd,
radio_fd, boot_fd that is at least 0, in that order. -/
def cleanup (radio_data_ptr link_fd radio_fd boot_fd : Int) : List CleanupAction :=
  (if radio_data_ptr ≠ MAP_FAILED then [.unmap radio_data_ptr] else []) ++
  (if 0 ≤ link_fd then [.closeFd link_fd] else []) ++
  (if 0 ≤ radio_fd then [.closeFd radio_fd] else []) ++
  (if 0 ≤ boot_fd then [.closeFd boot_fd] else [])

/-- xmm6260_setpower: a single ioctl on boot_fd whose result is returned. -/
def xmm6260_setpower (ioctlRet : Int) : Int := ioctlRet

/-- i9100_link_set_active: two ioctls on link_fd; the first negative
result is returned, otherwise 0. -/
def i9100_link_set_active (enableRet activeRet : Int) : Int :=
  if enableRet < 0 then enableRet
  else if activeRet < 0 then activeRet
  else 0

/-- i9100_ehci_setpower: open the EHCI sysfs file, write one byte, close.
When the open fails the function jumps to the cleanup label and returns
ret, which was never assigned: that indeterminate value is supplied by
the environment as uninit.  Otherwise the write result is returned,
including 0, since the check `ret <= 0` only logs. -/
def i9100_ehci_setpower (openRet writeRet uninit : Int) : Int :=
  if openRet < 0 then uninit else writeRet

/-- i9100_wait_link_ready: poll IOCTL_LINK_CONNECTED until an error
(returned) or the value 1 (returns 0).  The environment supplies the
successive poll results; exhausting them means the unbounded loop is
still running, modelled as none. -/
def i9100_wait_link_ready : List Int → Option Int
  | [] => none
  | r :: rs => if r < 0 then some r else if r = 1 then some 0 else i9100_wait_link_ready rs

/-- Environment of main: every system call result the run consumes, in
program order, plus the image bytes. -/
structure Env where
  openRadioRet : Int
  fstatRet : Int
  mmapOk : Bool
  openBootRet : Int
  openLinkRet : Int
  powerOffRet : Int
  linkDisableEnableRet : Int
  linkDisableActiveRet : Int
  ehciOffOpenRet : Int
  ehciOffWriteRet : Int
  ehciOffUninit : Int
  linkEnableEnableRet : Int
  linkEnableActiveRet : Int
  ehciOnOpenRet : Int
  ehciOnWriteRet : Int
  ehciOnUninit : Int
  powerOnRet : Int
  linkPolls : List Int
  atatWriteRet : Int
  ack1SelectRet : Int
  ack1ReadRet : Int
  ack2SelectRet : Int
  ack2ReadRet : Int
  radio_data : Nat → Nat
  psi : PsiEnv
  finalRecvRet : Int
  finalBuf : List Nat

/-- Where a run of main ended. -/
inductive Stage
  | failOpenRadio
  | failFstat
  | failMmap
  | failOpenBoot
  | failOpenLink
  | failEhciOn
  | failPowerOn
  | failLinkReady
  | hangLinkReady
  | failAtat
  | failAck1
  | failAck2
  | failPsi
  | hangPsi
  | failFinalAck
  | done
  deriving DecidableEq

/-- A step of the run that was reached (its system calls were issued). -/
inductive StepTag
  | powerOffStep
  | linkDeactivateStep
  | ehciOffStep
  | linkActivateStep
  | ehciOnStep
  | powerOnStep
  | waitReadyStep
  | atatWriteStep
  | readAck1Step
  | readAck2Step
  | sendPsiStep
  | finalAckStep
  deriving DecidableEq

/-- Observable result of a run of main: where it ended, the value it
returned (none when it never returns), how many write calls were issued
on the boot channel, which steps were reached, and the release actions
the cleanup block performed. -/
structure RunResult where
  stage : Stage
  exitCode : Option Int
  channelWrites : Nat
  steps : List StepTag
  cleanupActs : List CleanupAction

/-- Lines 498-537 of main, entered after the link is ready: write ATAT
(any result other than 4 is fatal), receive the bootloader and chip-id
acknowledgment bytes (fatal only on a negative receive result), run
send_PSI (fatal only on a negative return), and check the final two
bytes against 0x00 0xAA with expect_data (fatal only on a negative
result).  steps0 are the steps already reached and clean the release
actions of the cleanup block for the current variable values. -/
def handshakeAndLoad (env : Env) (steps0 : List StepTag) (clean : List CleanupAction) :
    RunResult :=
  let steps1 := steps0 ++ [.atatWriteStep]
  if env.atatWriteRet ≠ 4 then
    { stage := .failAtat, exitCode := some 0, channelWrites := 1, steps := steps1,
      cleanupActs := clean }
  else if receive env.ack1SelectRet env.ack1ReadRet < 0 then
    { stage := .failAck1, exitCode := some 0, channelWrites := 1,
      steps := steps1 ++ [.readAck1Step], cleanupActs := clean }
  else if receive env.ack2SelectRet env.ack2ReadRet < 0 then
    { stage := .failAck2, exitCode := some 0, channelWrites := 1,
      steps := steps1 ++ [.readAck1Step, .readAck2Step], cleanupActs := clean }
  else
    let pres := send_PSI env.radio_data env.psi
    let steps2 := steps1 ++ [.readAck1Step, .readAck2Step, .sendPsiStep]
    match pres.outcome with
    | .hang =>
      { stage := .hangPsi, exitCode := none, channelWrites := 1 + pres.writes,
        steps := steps2, cleanupActs := [] }
    | .ret pr =>
      if pr < 0 then
        { stage := .failPsi, exitCode := some 0, channelWrites := 1 + pres.writes,
          steps := steps2, cleanupActs := clean }
      else if expect_data env.finalRecvRet env.finalBuf [0x00, 0xAA] < 0 then
        { stage := .failFinalAck, exitCode := some 0, channelWrites := 1 + pres.writes,
          steps := steps2 ++ [.finalAckStep], cleanupActs := clean }
      else
        { stage := .done, exitCode := some 0, channelWrites := 1 + pres.writes,
          steps := steps2 ++ [.finalAckStep], cleanupActs := clean }

/-- Lines 437-537 of main, entered once all opens succeeded: power the
chip off, deactivate the link, power EHCI off and the link active flag
on, each of these four only logged; then EHCI power on and chip power on
(each fatal when negative), the link-ready poll (fatal on a negative
poll, never returning when the polls run out), the 500 ms settle sleep,
and handshakeAndLoad. -/
def bringUpAndLoad (env : Env) (clean : List CleanupAction) : RunResult :=
  let rOff := xmm6260_setpower env.powerOffRet
  let rDis := i9100_link_set_active env.linkDisableEnableRet env.linkDisableActiveRet
  let rEhciOff := i9100_ehci_setpower env.ehciOffOpenRet env.ehciOffWriteRet env.ehciOffUninit
  let rAct := i9100_link_set_active env.linkEnableEnableRet env.linkEnableActiveRet
  -- the four results above feed only the log messages: control flow ignores them
  let _ := (rOff, rDis, rEhciOff, rAct)
  let pre : List StepTag :=
    [.powerOffStep, .linkDeactivateStep, .ehciOffStep, .linkActivateStep, .ehciOnStep]
  if i9100_ehci_setpower env.ehciOnOpenRet env.ehciOnWriteRet env.ehciOnUninit < 0 then
    { stage := .failEhciOn, exitCode := some 0, channelWrites := 0, steps := pre,
      cleanupActs := clean }
  else if xmm6260_setpower env.powerOnRet < 0 then
    { stage := .failPowerOn, exitCode := some 0, channelWrites := 0,
      steps := pre ++ [.powerOnStep], cleanupActs := clean }
  else
    match i9100_wait_link_ready env.linkPolls with
    | none =>
      { stage := .hangLinkReady, exitCode := none, channelWrites := 0,
        steps := pre ++ [.powerOnStep, .waitReadyStep], cleanupActs := [] }
    | some r =>
      if r < 0 then
        { stage := .failLinkReady, exitCode := some 0, channelWrites := 0,
          steps := pre ++ [.powerOnStep, .waitReadyStep], cleanupActs := clean }
      else handshakeAndLoad env (pre ++ [.powerOnStep, .waitReadyStep]) clean

/-- main (lines 393-557).  The file-scope variables radio_fd, boot_fd and
link_fd start at 0 and radio_data starts at NULL (address 0); mmap
success is modelled by address 1.  Each failed open jumps to the cleanup
block with the variable values reached so far; the run always returns 0
when it returns at all. -/
def mainRun (env : Env) : RunResult :=
  let radio_fd := env.openRadioRet
  if radio_fd < 0 then
    { stage := .failOpenRadio, exitCode := some 0, channelWrites := 0, steps := [],
      cleanupActs := cleanup 0 0 radio_fd 0 }
  else if env.fstatRet < 0 then
    { stage := .failFstat, exitCode := some 0, channelWrites := 0, steps := [],
      cleanupActs := cleanup 0 0 radio_fd 0 }
  else
    let radio_data_ptr : Int := if env.mmapOk then 1 else MAP_FAILED
    if radio_data_ptr = MAP_FAILED then
      { stage := .failMmap, exitCode := some 0, channelWrites := 0, steps := [],
        cleanupActs := cleanup radio_data_ptr 0 radio_fd 0 }
    else
      let boot_fd := env.openBootRet
      if boot_fd < 0 then
        { stage := .failOpenBoot, exitCode := some 0, channelWrites := 0, steps := [],
          cleanupActs := cleanup radio_data_ptr 0 radio_fd boot_fd }
      else
        let link_fd := env.openLinkRet
        if link_fd < 0 then
          { stage := .failOpenLink, exitCode := some 0, channelWrites := 0, steps := [],
            cleanupActs := cleanup radio_data_ptr link_fd radio_fd boot_fd }
        else
          bringUpAndLoad env (cleanup radio_data_ptr link_fd radio_fd boot_fd)

/-- A send_PSI environment in which every call succeeds: header write
returns 4, one payload write covers the whole range, the checksum write
returns 1, the 22 drain reads return 1 and both confirmation reads
obtain the byte 0x01. -/
def psiEnvGood : PsiEnv :=
  { hdrWriteRet := 4, payloadWrites := [0xf000], crcWriteRet := 1,
    ackReadRet := fun _ => 1, conf1Ret := 1, conf1Byte := 0x01,
    conf2Ret := 1, conf2Byte := 0x01 }

/-- A main environment in which every call succeeds and every expected
byte arrives, so the run reaches the done stage. -/
def envGood : Env :=
  { openRadioRet := 3, fstatRet := 0, mmapOk := true, openBootRet := 4, openLinkRet := 5,
    powerOffRet := 0, linkDisableEnableRet := 0, linkDisableActiveRet := 0,
    ehciOffOpenRet := 6, ehciOffWriteRet := 1, ehciOffUninit := 0,
    linkEnableEnableRet := 0, linkEnableActiveRet := 0,
    ehciOnOpenRet := 6, ehciOnWriteRet := 1, ehciOnUninit := 0,
    powerOnRet := 0, linkPolls := [0, 1], atatWriteRet := 4,
    ack1SelectRet := 1, ack1ReadRet := 1, ack2SelectRet := 1, ack2ReadRet := 1,
    radio_data := fun _ => 0, psi := psiEnvGood,
    finalRecvRet := 2, finalBuf := [0x00, 0xAA] }

/-- All five opens at the start of main succeed. -/
def goodOpens (env : Env) : Prop :=
  0 ≤ env.openRadioRet ∧ 0 ≤ env.fstatRet ∧ env.mmapOk = true ∧
  0 ≤ env.openBootRet ∧ 0 ≤ env.openLinkRet

/-- The run reaches the handshake: the opens succeed, the two fatal
bring-up steps succeed, and the link-ready poll reports connected. -/
def reachesHandshake (env : Env) : Prop :=
  goodOpens env ∧
  0 ≤ i9100_ehci_setpower env.ehciOnOpenRet env.ehciOnWriteRet env.ehciOnUninit ∧
  0 ≤ xmm6260_setpower env.powerOnRet ∧
  i9100_wait_link_ready env.linkPolls = some 0

/-- The five bring-up steps up to and including EHCI power on, in the
order main issues them. -/
def bringUpSteps : List StepTag :=
  [.powerOffStep, .linkDeactivateStep, .ehciOffStep, .linkActivateStep, .ehciOnStep]

/-- A main environment in which all four non-fatal bring-up steps fail
(chip power off, link deactivation, EHCI power off with a failed open,
link activation) and EHCI power on also fails, while the opens succeed. -/
def envFatal : Env :=
  { envGood with
    powerOffRet := -1
    linkDisableEnableRet := -1
    linkDisableActiveRet := -1
    ehciOffOpenRet := -1
    ehciOffUninit := -3
    linkEnableEnableRet := -1
    linkEnableActiveRet := -1
    ehciOnWriteRet := -1 }

/-- Reduction of mainRun under successful opens: the run is the bring-up
phase with the cleanup of the fully acquired state. -/
theorem mainRun_eq_bringUp (env : Env) (h : goodOpens env) :
    mainRun env =
      bringUpAndLoad env (cleanup 1 env.openLinkRet env.openRadioRet env.openBootRet) := by
  obtain ⟨h1, h2, h3, h4, h5⟩ := h
  simp only [mainRun, h3]
  rw [if_neg (by omega), if_neg (by omega), if_neg (by decide), if_neg (by omega),
    if_neg (by omega)]
  simp

/-- Reduction of mainRun when the run reaches the handshake. -/
theorem mainRun_eq_handshake (env : Env) (h : reachesHandshake env) :
    mainRun env =
      handshakeAndLoad env (bringUpSteps ++ [.powerOnStep, .waitReadyStep])
        (cleanup 1 env.openLinkRet env.openRadioRet env.openBootRet) := by
  obtain ⟨hg, he, hp, hw⟩ := h
  rw [mainRun_eq_bringUp env hg]
  simp only [bringUpAndLoad, hw]
  rw [if_neg (by omega), if_neg (by omega)]
  simp [bringUpSteps]

/-- Every exit path of the handshake and load phase returns 0. -/
theorem handshakeAndLoad_exitCode (env : Env) (s : List StepTag) (c : List CleanupAction) :
    (handshakeAndLoad env s c).exitCode = some 0 ∨ (handshakeAndLoad env s c).exitCode = none := by
  simp only [handshakeAndLoad]
  repeat' split
  all_goals first | exact Or.inl rfl | exact Or.inr rfl

/-- Every exit path of the bring-up phase returns 0. -/
theorem bringUpAndLoad_exitCode (env : Env) (c : List CleanupAction) :
    (bringUpAndLoad env c).exitCode = some 0 ∨ (bringUpAndLoad env c).exitCode = none := by
  simp only [bringUpAndLoad]
  repeat' split
  all_goals
    first | exact Or.inl rfl | exact Or.inr rfl | exact handshakeAndLoad_exitCode env _ _

/-- C1: the claim says the PSI payload loop sends exactly the bytes of
the range from offset to offset plus length, and that a negative write
result aborts the upload as fatal.  The code does neither: written has
type size_t, so a write result of -1 becomes 2 to the 64 minus 1, the
dead negative test does not fire, the cursor wraps past the end and the
loop exits as done having sent nothing, after which send_PSI continues
and even returns 0; and each call requests end minus offset bytes (the
full length) instead of end minus start, so after a partial write of
0x7000 bytes the next call starts at 0x7000 and requests 0xf000 bytes,
reaching 0x16000, beyond the PSI range. -/
theorem psi_write_loop_ignores_negative_result :
    (psiWriteLoop 0 0xf000 0 [(-1 : Int)]).1 = .done ∧
    (psiWriteLoop 0 0xf000 0 [(-1 : Int)]).2 =
      [{ startAddr := 0, count := 0xf000, ret := -1 }] ∧
    (send_PSI (fun _ => 0) { psiEnvGood with payloadWrites := [-1] }).outcome = .ret 0 ∧
    (psiWriteLoop 0 0xf000 0 [(0x7000 : Int), 0xf000]).2 =
      [{ startAddr := 0, count := 0xf000, ret := 0x7000 },
       { startAddr := 0x7000, count := 0xf000, ret := 0xf000 }] := by
  refine ⟨rfl, by decide, rfl, by decide⟩

/-- C2: the claim says the upload fails whenever either post-checksum
confirmation byte differs from 0x01.  The code checks the memcmp result
of expect_data with less-than-zero instead of not-equal-zero, so any
received byte above 0x01 gives a positive memcmp and send_PSI returns 0,
reporting success: here the first confirmation byte is 0x02. -/
theorem send_PSI_accepts_confirm_byte_above_one :
    (send_PSI (fun _ => 0) { psiEnvGood with conf1Byte := 0x02 }).outcome = .ret 0 ∧
    (0x02 : Nat) ≠ 0x01 := by
  exact ⟨rfl, by decide⟩

/-- C3: the claim says main treats the run as failed whenever the final
two bytes differ from 0x00 0xAA.  The code checks the expect_data result
with less-than-zero, so received bytes 0x01 0x00 give a positive memcmp
and the run reaches the done stage. -/
theorem main_accepts_final_ack_mismatch :
    (mainRun { envGood with finalBuf := [0x01, 0x00] }).stage = .done ∧
    ([0x01, 0x00] : List Nat) ≠ [0x00, 0xAA] := by
  exact ⟨rfl, by decide⟩

/-- C4 counterexample: the claim says construction from a length above
65535 fails rather than silently truncating.  The code has no such
check: the length 0x10000 is silently truncated to 0 by the implicit
conversion to the uint16_t field, and construction succeeds. -/
theorem mkPsiHeader_truncates_large_length :
    mkPsiHeader 0x10000 = { magic := 0x30, length := 0, padding := 0 } ∧
    65535 < 0x10000 := by
  exact ⟨rfl, by decide⟩

/-- C4 amended: the header is magic 0x30, the length reduced modulo
65536, and a zero padding byte; for the deployed first-stage length
0xf000 the stored length is exactly 0xf000.  No invariant is checked:
lengths above 65535 are silently truncated. -/
theorem mkPsiHeader_mod_65536 :
    mkPsiHeader (i9100_radio_parts .PSI).length =
      { magic := 0x30, length := 0xf000, padding := 0 } ∧
    ∀ n : Nat, mkPsiHeader n = { magic := 0x30, length := n % 65536, padding := 0 } := by
  exact ⟨rfl, fun n => rfl⟩

/-- C5: whenever send_PSI reaches the checksum write, the byte it passes
to that write is calculateCRC of exactly the first-stage range (offset 0,
length 0xf000) of the image, the running XOR of those bytes; and the
running XOR of the bytes 0x01, 0x02, 0x03 is 0x00. -/
theorem send_PSI_checksum_is_xor_of_psi_range :
    (∀ (data : Nat → Nat) (env : PsiEnv),
      (send_PSI data env).crcSent = none ∨
      (send_PSI data env).crcSent =
        some (calculateCRC data (i9100_radio_parts .PSI).offset
          (i9100_radio_parts .PSI).length)) ∧
    calculateCRC (fun i => [1, 2, 3].getD i 0) 0 3 = 0 := by
  refine ⟨fun data env => ?_, by decide⟩
  simp only [send_PSI]
  repeat' split
  all_goals first | exact Or.inl rfl | exact Or.inr rfl

/-- C6: under successful opens, the run always issues the four non-fatal
bring-up steps and proceeds to EHCI power on, whatever their results
(the first five steps of the trace are fixed); if EHCI power on returns
a negative value the run ends at the failEhciOn stage with no write on
the boot channel and never reaches the ATAT write, and likewise if chip
power on fails after EHCI power on succeeded. -/
theorem bring_up_fatality (env : Env) (h : goodOpens env) :
    (mainRun env).steps.take 5 = bringUpSteps ∧
    (i9100_ehci_setpower env.ehciOnOpenRet env.ehciOnWriteRet env.ehciOnUninit < 0 →
      (mainRun env).stage = .failEhciOn ∧ (mainRun env).channelWrites = 0 ∧
      StepTag.atatWriteStep ∉ (mainRun env).steps) ∧
    (0 ≤ i9100_ehci_setpower env.ehciOnOpenRet env.ehciOnWriteRet env.ehciOnUninit →
      xmm6260_setpower env.powerOnRet < 0 →
      (mainRun env).stage = .failPowerOn ∧ (mainRun env).channelWrites = 0 ∧
      StepTag.atatWriteStep ∉ (mainRun env).steps) := by
  rw [mainRun_eq_bringUp env h]
  refine ⟨?_, fun he => ?_, fun he hp => ?_⟩
  · simp only [bringUpAndLoad, handshakeAndLoad]
    repeat' split
    all_goals rfl
  · simp only [bringUpAndLoad]
    rw [if_pos he]
    refine ⟨rfl, rfl, ?_⟩
    show StepTag.atatWriteStep ∉ bringUpSteps
    decide
  · simp only [bringUpAndLoad]
    rw [if_neg (by omega), if_pos hp]
    refine ⟨rfl, rfl, ?_⟩
    show StepTag.atatWriteStep ∉ bringUpSteps ++ [.powerOnStep]
    decide

/-- C6 witness: in the environment where the four non-fatal steps and
EHCI power on all fail, the run aborts at failEhciOn without any channel
write and without the ATAT step. -/
theorem bring_up_fatality_witness :
    (mainRun envFatal).stage = .failEhciOn ∧ (mainRun envFatal).channelWrites = 0 ∧
    StepTag.atatWriteStep ∉ (mainRun envFatal).steps := by
  have h := bring_up_fatality envFatal (by refine ⟨?_, ?_, ?_, ?_, ?_⟩ <;> decide)
  exact h.2.1 (by decide)

/-- C7: the claim says cleanup is a no-op on never-acquired resources.
When the very first open fails, the file-scope variables still hold
their static initial values (fds 0, radio_data NULL), and the cleanup
block calls munmap on address 0 and close on fd 0 twice: fd 0 is the
standard input, an unrelated resource, and address 0 was never mapped. -/
theorem cleanup_closes_fd_zero :
    (mainRun { envGood with openRadioRet := -1 }).stage = .failOpenRadio ∧
    (mainRun { envGood with openRadioRet := -1 }).cleanupActs =
      [.unmap 0, .closeFd 0, .closeFd 0] := by
  exact ⟨rfl, rfl⟩

/-- C8 counterexample: the NVDATA table entry has offset 0x6406e00 and
length 0x200000, whose sum exceeds the 16 MiB radio image mapping, so
the claimed invariant fails for that component. -/
theorem nvdata_exceeds_radio_map :
    RADIO_MAP_SIZE <
      (i9100_radio_parts .NVDATA).offset + (i9100_radio_parts .NVDATA).length := by
  decide

/-- C8 amended: for every component other than NVDATA, offset plus
length is at most RADIO_MAP_SIZE, the size of the mapping acquired at
the start of the run. -/
theorem radio_parts_fit_except_nvdata (c : xmm6260_image) (h : c ≠ .NVDATA) :
    (i9100_radio_parts c).offset + (i9100_radio_parts c).length ≤ RADIO_MAP_SIZE := by
  cases c
  case NVDATA => exact absurd rfl h
  all_goals decide

/-- C8 witness: the first-stage loader component satisfies the bound. -/
theorem radio_parts_fit_witness :
    (i9100_radio_parts .PSI).offset + (i9100_radio_parts .PSI).length ≤ RADIO_MAP_SIZE :=
  radio_parts_fit_except_nvdata .PSI (by decide)

/-- C9 counterexample: the claim says the handshake returns the two
bytes only when each read actually obtained one byte.  A read returning
0 bytes passes the less-than-zero check, and the run proceeds all the
way to done even though the first acknowledgment read obtained nothing. -/
theorem handshake_accepts_zero_byte_read :
    (mainRun { envGood with ack1ReadRet := 0 }).stage = .done ∧
    receive 1 0 = 0 := by
  exact ⟨rfl, rfl⟩

/-- C9 amended: once the run reaches the handshake, a 4-byte sync write
result other than 4 is fatal, and each of the two acknowledgment reads
is fatal exactly when the receive result is negative; when the write
returns 4 and both receive results are at least 0, including 0-byte
reads, the run proceeds into send_PSI. -/
theorem handshake_fatal_iff_negative (env : Env) (h : reachesHandshake env) :
    (env.atatWriteRet ≠ 4 → (mainRun env).stage = .failAtat) ∧
    (env.atatWriteRet = 4 → receive env.ack1SelectRet env.ack1ReadRet < 0 →
      (mainRun env).stage = .failAck1) ∧
    (env.atatWriteRet = 4 → 0 ≤ receive env.ack1SelectRet env.ack1ReadRet →
      receive env.ack2SelectRet env.ack2ReadRet < 0 → (mainRun env).stage = .failAck2) ∧
    (env.atatWriteRet = 4 → 0 ≤ receive env.ack1SelectRet env.ack1ReadRet →
      0 ≤ receive env.ack2SelectRet env.ack2ReadRet →
      StepTag.sendPsiStep ∈ (mainRun env).steps) := by
  rw [mainRun_eq_handshake env h]
  refine ⟨fun ha => ?_, fun ha h1 => ?_, fun ha h1 h2 => ?_, fun ha h1 h2 => ?_⟩
  · simp only [handshakeAndLoad]
    rw [if_pos ha]
  · simp only [handshakeAndLoad]
    rw [if_neg (by omega), if_pos h1]
  · simp only [handshakeAndLoad]
    rw [if_neg (by omega), if_neg (by omega), if_pos h2]
  · simp only [handshakeAndLoad]
    rw [if_neg (by omega), if_neg (by omega), if_neg (by omega)]
    repeat' split
    all_goals simp [bringUpSteps]

/-- C9 witness: a sync write that returns 3 ends the run at failAtat. -/
theorem handshake_fatal_witness :
    (mainRun { envGood with atatWriteRet := 3 }).stage = .failAtat := by
  have h := handshake_fatal_iff_negative { envGood with atatWriteRet := 3 }
    (by refine ⟨⟨?_, ?_, ?_, ?_, ?_⟩, ?_, ?_, ?_⟩ <;> decide)
  exact h.1 (by decide)

/-- C10: for every environment, when main returns at all it returns 0,
whether the run reached done or aborted at any stage; the exit status
never distinguishes success from failure. -/
theorem main_exit_always_zero (env : Env) :
    (mainRun env).exitCode = some 0 ∨ (mainRun env).exitCode = none := by
  simp only [mainRun]
  repeat' split
  all_goals
    first | exact Or.inl rfl | exact Or.inr rfl | exact bringUpAndLoad_exitCode env _

end XMM6260
